import Mathlib

/-!
Shallow embedding of src/src/cuda/FeatureLPPoolingHost.cpp (fbcunn).

A raw tensor is modelled as its metadata: an ordered list of axes, each an
ordered pair (size, stride), mirroring the THCudaTensor size/stride arrays.
The rank is the list length.  The device-side pooling kernels
(runFeatureLPPoolingUpdateOutput / UpdateGradInput) are external
collaborators and out of scope; the host functions are modelled up to the
point where they would invoke the kernel, returning the possible error
(from luaL_error, which aborts the call) together with the state of the
caller-provided buffer that the function mutates (output for updateOutput,
gradInput for updateGradInput).
-/

namespace FeatureLPPooling

/-- One tensor axis: (size, stride), as in THCudaTensor metadata. -/
abbrev Axis := Nat × Nat

/-- A raw tensor view: its per-axis (size, stride) list; rank = length. -/
abbrev Tensor := List Axis

/-- THCudaTensor_size(t, i): the size of axis i. Out-of-range reads default
to 0; the host code only reads in-range axes on reachable paths. -/
def rawSize (t : Tensor) (i : Nat) : Nat := (t.getD i (0, 0)).1

/-- Row-major contiguous strides for a size list, as THCudaTensor_resizeNd
computes when invoked with NULL strides (the resize1d..4d calls). -/
def contigStrides : List Nat → List Nat
  | [] => []
  | _ :: rest => rest.prod :: contigStrides rest

/-- A freshly resized contiguous tensor with the given sizes. -/
def mkContig (sizes : List Nat) : Tensor := sizes.zip (contigStrides sizes)

/-- The canonical rank-4 view DeviceTensor<float, 4>:
[batch, feature, extra1, extra2] axes. -/
structure Canon where
  batch : Axis
  feature : Axis
  extra1 : Axis
  extra2 : Axis
deriving DecidableEq

/-- The four axis sizes of a canonical view, in order. -/
def Canon.sizeList (c : Canon) : List Nat :=
  [c.batch.1, c.feature.1, c.extra1.1, c.extra2.1]

/-- getSize(1): the feature-axis size of a canonical view. -/
def Canon.getSize1 (c : Canon) : Nat := c.feature.1

/-- Modelled from the spec: DeviceTensor upcastOuter / upcastInner (declared
in cuda/DeviceTensor.cuh, which is not part of the host source file) insert
singleton axes where absent; the inserted axis has size 1, and its stride is
fixed at 1 here (the spec leaves strides of singleton axes unconstrained;
a singleton axis stride never affects addressing). -/
def sing : Axis := (1, 1)

/-- upcast(t, batchMode): canonicalize a rank 1-4 raw tensor to the rank-4
view, folly::none when the rank/batchMode combination is unsupported.
Direct translation of the if/else chain on THCudaTensor_nDimension;
the placement of inserted singleton axes follows the upcastOuter /
upcastInner comments in the source and the spec mapping table. -/
def upcast (t : Tensor) (batchMode : Bool) : Option Canon :=
  match t, batchMode with
  | [f], false => some ⟨sing, f, sing, sing⟩
  | [b, f], true => some ⟨b, f, sing, sing⟩
  | [f, e1], false => some ⟨sing, f, e1, sing⟩
  | [b, f, e1], true => some ⟨b, f, e1, sing⟩
  | [f, e1, e2], false => some ⟨sing, f, e1, e2⟩
  | [b, f, e1, e2], true => some ⟨b, f, e1, e2⟩
  | _, _ => none

/-- Modelled from the spec: DeviceTensor::isSameSizeAndStride (declared in
cuda/DeviceTensor.cuh, not part of the host source file) compares the two
views axis by axis on both size and stride. -/
def isSameSizeAndStride (x y : Canon) : Bool :=
  x.batch == y.batch && x.feature == y.feature &&
    x.extra1 == y.extra1 && x.extra2 == y.extra2

/-- The error taxonomy of spec section 7.  The host code raises via
luaL_error with a message string; the kind records the taxonomy class of
each raise site (InvalidParameter: W or S out of range; UnsupportedRank:
rank/batchMode cannot canonicalize; ShapeMismatch: feature axis too small or
shape disagreement). -/
inductive ErrorKind where
  | InvalidParameter
  | UnsupportedRank
  | ShapeMismatch
deriving DecidableEq

/-- An error raised by a host function: taxonomy kind plus the exact
luaL_error message from the source. -/
structure PoolError where
  kind : ErrorKind
  msg : String
deriving DecidableEq

/-- outputSize(inputSize, width, stride) = ((inputSize - width) / stride) + 1
with C++ int division, which truncates toward zero (Int.tdiv). -/
def outputSize (inputSize width stride : Int) : Int :=
  (inputSize - width).tdiv stride + 1

/-- resizeForOutput(toResize, input, batchMode, width, stride): resize
toResize to the output shape for input.  outSize is computed from axis 0,
overwritten from axis 1 in batch mode; then one resize1d..4d call per
input rank, replacing the feature axis size by outSize and passing every
other axis size through at its position.  Ranks outside 1..4 hit
assert-only paths and perform no resize (asserts are no-ops in release
builds; these paths are unreachable from the two host entry points). -/
def resizeForOutput (toResize input : Tensor) (batchMode : Bool)
    (width stride : Int) : Tensor :=
  let outSize : Int :=
    if batchMode then outputSize (rawSize input 1) width stride
    else outputSize (rawSize input 0) width stride
  match input, batchMode with
  | [_], _ => mkContig [outSize.toNat]
  | [s0, _], true => mkContig [s0.1, outSize.toNat]
  | [_, s1], false => mkContig [outSize.toNat, s1.1]
  | [s0, _, s2], true => mkContig [s0.1, outSize.toNat, s2.1]
  | [_, s1, s2], false => mkContig [outSize.toNat, s1.1, s2.1]
  | [s0, _, s2, s3], _ => mkContig [s0.1, outSize.toNat, s2.1, s3.1]
  | _, _ => toResize

/-- resize(toResize, src): make toResize the same size/dimensionality as
src (one resize1d..4d call per src rank).  Other ranks hit the
assert(false) path and perform no resize. -/
def resize (toResize src : Tensor) : Tensor :=
  match src with
  | [a] => mkContig [a.1]
  | [a, b] => mkContig [a.1, b.1]
  | [a, b, c] => mkContig [a.1, b.1, c.1]
  | [a, b, c, d] => mkContig [a.1, b.1, c.1, d.1]
  | _ => toResize

/-- featureLPPooling_updateOutput: the forward host entry point.  Returns
the error raised (if any) and the final state of the caller-provided output
buffer.  The power parameter is read from the Lua frame but never
validated and only forwarded to the out-of-scope kernel, so it is omitted.
Each luaL_error site aborts the call with the buffer in its state at that
point. -/
def featureLPPooling_updateOutput (inputTH outputTH : Tensor)
    (width stride : Int) (batchMode : Bool) : Option PoolError × Tensor :=
  match upcast inputTH batchMode with
  | none =>
    if batchMode then
      (some ⟨ErrorKind.UnsupportedRank,
        "batch_mode: input must be 2-4 dimensions"⟩, outputTH)
    else
      (some ⟨ErrorKind.UnsupportedRank,
        "no batch_mode: input must be 1-3 dimensions"⟩, outputTH)
  | some input =>
    if (Canon.getSize1 input : Int) < width then
      (some ⟨ErrorKind.ShapeMismatch,
        "input: feature dimension must be >= width"⟩, outputTH)
    else if width < 2 ∨ width > 16 then
      (some ⟨ErrorKind.InvalidParameter,
        "width: must be between 2 -> 16"⟩, outputTH)
    else if stride < 1 ∨ stride > 4 then
      (some ⟨ErrorKind.InvalidParameter,
        "stride: must be between 1 -> 4"⟩, outputTH)
    else
      (none, resizeForOutput outputTH inputTH batchMode width stride)

/-- featureLPPooling_updateGradInput: the backward host entry point.
Returns the error raised (if any) and the final state of the
caller-provided gradInput buffer.  Validation mirrors the source order:
input upcast, feature-size, width range, stride range, gradOutput/output
upcast, isSameSizeAndStride, and the outputSize consistency check; only
then is gradInput resized (and the out-of-scope kernel invoked). -/
def featureLPPooling_updateGradInput
    (inputTH gradOutputTH outputTH gradInputTH : Tensor)
    (width stride : Int) (batchMode : Bool) : Option PoolError × Tensor :=
  match upcast inputTH batchMode with
  | none =>
    if batchMode then
      (some ⟨ErrorKind.UnsupportedRank,
        "batch_mode: input must be 2-4 dimensions"⟩, gradInputTH)
    else
      (some ⟨ErrorKind.UnsupportedRank,
        "no batch_mode: input must be 1-3 dimensions"⟩, gradInputTH)
  | some input =>
    if (Canon.getSize1 input : Int) < width then
      (some ⟨ErrorKind.ShapeMismatch,
        "input: feature dimension must be >= width"⟩, gradInputTH)
    else if width < 2 ∨ width > 16 then
      (some ⟨ErrorKind.InvalidParameter,
        "width: must be between 2 -> 16"⟩, gradInputTH)
    else if stride < 1 ∨ stride > 4 then
      (some ⟨ErrorKind.InvalidParameter,
        "stride: must be between 1 -> 4"⟩, gradInputTH)
    else
      match upcast gradOutputTH batchMode, upcast outputTH batchMode with
      | some gradOutput, some output =>
        if isSameSizeAndStride output gradOutput = false then
          (some ⟨ErrorKind.ShapeMismatch,
            "output and gradOutput sizes do not match"⟩, gradInputTH)
        else if outputSize (Canon.getSize1 input) width stride
            ≠ (Canon.getSize1 output : Int) then
          (some ⟨ErrorKind.ShapeMismatch,
            "input and output sizes do not match with respect to width and stride"⟩,
            gradInputTH)
        else
          (none, resize gradInputTH inputTH)
      | _, _ =>
        (some ⟨ErrorKind.UnsupportedRank,
          "output and/or gradOutput are improperly sized"⟩, gradInputTH)

/-! Helper lemmas -/

theorem contigStrides_length (l : List Nat) :
    (contigStrides l).length = l.length := by
  induction l with
  | nil => rfl
  | cons a rest ih => simp [contigStrides, ih]

theorem mkContig_map_fst (l : List Nat) :
    (mkContig l).map Prod.fst = l := by
  apply List.map_fst_zip
  rw [contigStrides_length]

/-- Claim C1 counterexample: for the valid parameters W = 2, S = 2 and the
feature size N = 1, the code computes outputSize 1 2 2 = 1 (C++ int division
truncates toward zero), while the floor formula of the claim gives
floor((1-2)/2) + 1 = 0, so the claimed equality does not hold for every
feature size. -/
theorem outputSize_floor_counterexample :
    outputSize 1 2 2 ≠ Int.fdiv (1 - 2) 2 + 1 := by decide

/-- Claim C1 (amended): for valid W (2..16) and S (1..4) and any feature
size N with N ≥ W — the precondition the host code enforces before
outputSize is ever used — outputSize N W S equals floor((N-W)/S) + 1, and
this value is at least 1. -/
theorem outputSize_floor_formula (n w s : Int)
    (hw : 2 ≤ w ∧ w ≤ 16) (hs : 1 ≤ s ∧ s ≤ 4) (hn : w ≤ n) :
    outputSize n w s = Int.fdiv (n - w) s + 1 ∧ 1 ≤ outputSize n w s := by
  have h1 : (0 : Int) ≤ n - w := by omega
  have h2 : (0 : Int) ≤ s := by omega
  constructor
  · unfold outputSize
    rw [Int.tdiv_eq_ediv h1 h2, Int.fdiv_eq_ediv _ h2]
  · have h3 := Int.tdiv_nonneg h1 h2
    unfold outputSize at h3 ⊢
    omega

/-- Witness for Claim C1 (amended) at N = 4, W = 2, S = 1. -/
theorem outputSize_floor_formula_witness :
    outputSize 4 2 1 = Int.fdiv (4 - 2) 1 + 1 ∧ 1 ≤ outputSize 4 2 1 :=
  outputSize_floor_formula 4 2 1 (by decide) (by decide) (by decide)

/-- Claim C2: upcast realizes exactly the rank-4 mapping table of the spec:
R=1 unbatched gives [1, f, 1, 1]; R=2 batched gives [b, f, 1, 1];
R=2 unbatched gives [1, f, e1, 1]; R=3 batched gives [b, f, e1, 1];
R=3 unbatched gives [1, f, e1, e2]; R=4 batched gives [b, f, e1, e2];
in particular a batched rank-2 tensor of shape (B, F) yields batch size B
and feature size F, and an unbatched rank-2 tensor of shape (F, E) yields
feature size F and extra1 size E. -/
theorem upcast_mapping_table (f b e1 e2 : Axis) :
    (upcast [f] false).map Canon.sizeList = some [1, f.1, 1, 1] ∧
    (upcast [b, f] true).map Canon.sizeList = some [b.1, f.1, 1, 1] ∧
    (upcast [f, e1] false).map Canon.sizeList = some [1, f.1, e1.1, 1] ∧
    (upcast [b, f, e1] true).map Canon.sizeList = some [b.1, f.1, e1.1, 1] ∧
    (upcast [f, e1, e2] false).map Canon.sizeList
      = some [1, f.1, e1.1, e2.1] ∧
    (upcast [b, f, e1, e2] true).map Canon.sizeList
      = some [b.1, f.1, e1.1, e2.1] :=
  ⟨rfl, rfl, rfl, rfl, rfl, rfl⟩

/-- Claim C4: a rank-1 input with batchMode true and a rank-4 input with
batchMode false fail with UnsupportedRank, with message
"batch_mode: input must be 2-4 dimensions" in the batched case and
"no batch_mode: input must be 1-3 dimensions" in the unbatched case, in
both the forward and backward entry points. -/
theorem unsupported_rank_messages (f a b c d : Axis)
    (outputTH gradOutputTH outTH gradInputTH : Tensor) (w s : Int) :
    (featureLPPooling_updateOutput [f] outputTH w s true).1
      = some ⟨ErrorKind.UnsupportedRank,
          "batch_mode: input must be 2-4 dimensions"⟩ ∧
    (featureLPPooling_updateOutput [a, b, c, d] outputTH w s false).1
      = some ⟨ErrorKind.UnsupportedRank,
          "no batch_mode: input must be 1-3 dimensions"⟩ ∧
    (featureLPPooling_updateGradInput [f] gradOutputTH outTH gradInputTH
        w s true).1
      = some ⟨ErrorKind.UnsupportedRank,
          "batch_mode: input must be 2-4 dimensions"⟩ ∧
    (featureLPPooling_updateGradInput [a, b, c, d] gradOutputTH outTH
        gradInputTH w s false).1
      = some ⟨ErrorKind.UnsupportedRank,
          "no batch_mode: input must be 1-3 dimensions"⟩ :=
  ⟨rfl, rfl, rfl, rfl⟩

/-- Claim C10: for a tensor of rank 0 or rank at least 5, upcast returns
none, and both entry points reject with the same UnsupportedRank messages
used for the rank-1-batched and rank-4-unbatched cases, leaving the
caller buffer untouched. -/
theorem bad_rank_total_rejection (t : Tensor) (bm : Bool)
    (h : t.length = 0 ∨ 5 ≤ t.length)
    (outputTH gradOutputTH outTH gradInputTH : Tensor) (w s : Int) :
    upcast t bm = none ∧
    featureLPPooling_updateOutput t outputTH w s bm
      = (some ⟨ErrorKind.UnsupportedRank,
          if bm then "batch_mode: input must be 2-4 dimensions"
          else "no batch_mode: input must be 1-3 dimensions"⟩, outputTH) ∧
    featureLPPooling_updateGradInput t gradOutputTH outTH gradInputTH w s bm
      = (some ⟨ErrorKind.UnsupportedRank,
          if bm then "batch_mode: input must be 2-4 dimensions"
          else "no batch_mode: input must be 1-3 dimensions"⟩, gradInputTH)
      := by
  have hn : upcast t bm = none := by
    rcases t with _ | ⟨a1, _ | ⟨a2, _ | ⟨a3, _ | ⟨a4, _ | ⟨a5, rest⟩⟩⟩⟩⟩
    · cases bm <;> rfl
    · simp at h
    · simp at h
    · simp at h
    · simp at h
    · cases bm <;> rfl
  refine ⟨hn, ?_, ?_⟩ <;>
    simp only [featureLPPooling_updateOutput,
      featureLPPooling_updateGradInput, hn] <;>
    cases bm <;> simp

/-- Witness for Claim C10 at a concrete rank-5 tensor in batch mode. -/
theorem bad_rank_total_rejection_witness :
    upcast [(1, 1), (1, 1), (1, 1), (1, 1), (1, 1)] true = none ∧
    featureLPPooling_updateOutput [(1, 1), (1, 1), (1, 1), (1, 1), (1, 1)]
        [(9, 9)] 2 1 true
      = (some ⟨ErrorKind.UnsupportedRank,
          "batch_mode: input must be 2-4 dimensions"⟩, [(9, 9)]) := by
  have h := bad_rank_total_rejection
    [(1, 1), (1, 1), (1, 1), (1, 1), (1, 1)] true (by simp)
    [(9, 9)] [] [] [] 2 1
  exact ⟨h.1, by simpa using h.2.1⟩

/-- Claim C3 counterexample: the call updateOutput on the unbatched rank-1
input of feature size 1 with W = 17 (outside 2..16) and S = 1 does not fail
with InvalidParameter as the claim states for every call: the feature-size
check runs first and reports ShapeMismatch. -/
theorem boundary_rejection_counterexample :
    ((featureLPPooling_updateOutput [(1, 1)] [] 17 1 false).1).map
        PoolError.kind ≠ some ErrorKind.InvalidParameter ∧
    ((featureLPPooling_updateOutput [(1, 1)] [] 17 1 false).1).map
        PoolError.kind = some ErrorKind.ShapeMismatch := by
  decide

/-- Claim C3 (amended): in both operations, once the input canonicalizes:
a feature-axis size smaller than W fails with ShapeMismatch; if the feature
size is at least W, a width outside 2..16 fails with InvalidParameter; and
if additionally the width is within 2..16, a stride outside 1..4 fails with
InvalidParameter.  (The feature-size check precedes the range checks, so
the range errors are only reported when it passes.) -/
theorem boundary_rejection
    (inputTH outputTH gradOutputTH outTH gradInputTH : Tensor)
    (w s : Int) (bm : Bool) (c : Canon)
    (hu : upcast inputTH bm = some c) :
    ((c.getSize1 : Int) < w →
      (featureLPPooling_updateOutput inputTH outputTH w s bm).1
        = some ⟨ErrorKind.ShapeMismatch,
            "input: feature dimension must be >= width"⟩ ∧
      (featureLPPooling_updateGradInput inputTH gradOutputTH outTH
          gradInputTH w s bm).1
        = some ⟨ErrorKind.ShapeMismatch,
            "input: feature dimension must be >= width"⟩) ∧
    (w ≤ (c.getSize1 : Int) → (w < 2 ∨ w > 16) →
      (featureLPPooling_updateOutput inputTH outputTH w s bm).1
        = some ⟨ErrorKind.InvalidParameter,
            "width: must be between 2 -> 16"⟩ ∧
      (featureLPPooling_updateGradInput inputTH gradOutputTH outTH
          gradInputTH w s bm).1
        = some ⟨ErrorKind.InvalidParameter,
            "width: must be between 2 -> 16"⟩) ∧
    (w ≤ (c.getSize1 : Int) → 2 ≤ w → w ≤ 16 → (s < 1 ∨ s > 4) →
      (featureLPPooling_updateOutput inputTH outputTH w s bm).1
        = some ⟨ErrorKind.InvalidParameter,
            "stride: must be between 1 -> 4"⟩ ∧
      (featureLPPooling_updateGradInput inputTH gradOutputTH outTH
          gradInputTH w s bm).1
        = some ⟨ErrorKind.InvalidParameter,
            "stride: must be between 1 -> 4"⟩) := by
  refine ⟨fun hf => ?_, fun hf hw => ?_, fun hf h2 h16 hs => ?_⟩ <;>
    constructor <;>
    simp only [featureLPPooling_updateOutput,
      featureLPPooling_updateGradInput, hu]
  · rw [if_pos hf]
  · rw [if_pos hf]
  · rw [if_neg (by omega), if_pos hw]
  · rw [if_neg (by omega), if_pos hw]
  · rw [if_neg (by omega), if_neg (by omega), if_pos hs]
  · rw [if_neg (by omega), if_neg (by omega), if_pos hs]

/-- Witness for Claim C3 (amended): a rank-1 input with feature size 20 and
W = 17 is rejected with the InvalidParameter width error. -/
theorem boundary_rejection_witness :
    (featureLPPooling_updateOutput [(20, 1)] [] 17 1 false).1
      = some ⟨ErrorKind.InvalidParameter,
          "width: must be between 2 -> 16"⟩ := by
  have h := boundary_rejection [(20, 1)] [] [] [] [] 17 1 false
    ⟨(1, 1), (20, 1), (1, 1), (1, 1)⟩ rfl
  exact (h.2.1 (by decide) (by decide)).1

/-- Claim C9: in both entry points the feature-size check runs before the
width and stride range checks, so when the canonical feature size is
smaller than the width and the width is simultaneously outside 2..16, the
reported error is the feature-dimension ShapeMismatch error, not the
width-range error. -/
theorem feature_check_precedes_range_checks
    (inputTH outputTH gradOutputTH outTH gradInputTH : Tensor)
    (w s : Int) (bm : Bool) (c : Canon)
    (hu : upcast inputTH bm = some c)
    (hf : (c.getSize1 : Int) < w)
    (hw : w < 2 ∨ w > 16) :
    (featureLPPooling_updateOutput inputTH outputTH w s bm).1
      = some ⟨ErrorKind.ShapeMismatch,
          "input: feature dimension must be >= width"⟩ ∧
    (featureLPPooling_updateGradInput inputTH gradOutputTH outTH
        gradInputTH w s bm).1
      = some ⟨ErrorKind.ShapeMismatch,
          "input: feature dimension must be >= width"⟩ := by
  constructor <;>
    simp only [featureLPPooling_updateOutput,
      featureLPPooling_updateGradInput, hu] <;>
    rw [if_pos hf]

/-- Witness for Claim C9: feature size 1 with W = 17 reports the
feature-dimension error in the forward entry point. -/
theorem feature_check_precedes_range_checks_witness :
    (featureLPPooling_updateOutput [(1, 1)] [] 17 1 false).1
      = some ⟨ErrorKind.ShapeMismatch,
          "input: feature dimension must be >= width"⟩ :=
  (feature_check_precedes_range_checks [(1, 1)] [] [] [] [] 17 1 false
    ⟨(1, 1), (1, 1), (1, 1), (1, 1)⟩ rfl (by decide) (by decide)).1

/-- Claim C8: in both entry points every validation check runs before the
caller buffer is resized (and before the kernel would run), so any call
that fails leaves the caller-provided buffer (output for forward, gradInput
for backward) exactly as it was passed in. -/
theorem validation_before_mutation :
    (∀ (inputTH outputTH : Tensor) (w s : Int) (bm : Bool),
      ((featureLPPooling_updateOutput inputTH outputTH w s bm).1).isSome →
      (featureLPPooling_updateOutput inputTH outputTH w s bm).2
        = outputTH) ∧
    (∀ (inputTH gradOutputTH outTH gradInputTH : Tensor) (w s : Int)
      (bm : Bool),
      ((featureLPPooling_updateGradInput inputTH gradOutputTH outTH
          gradInputTH w s bm).1).isSome →
      (featureLPPooling_updateGradInput inputTH gradOutputTH outTH
          gradInputTH w s bm).2 = gradInputTH) := by
  constructor
  · intro inputTH outputTH w s bm h
    cases hu : upcast inputTH bm with
    | none => simp only [featureLPPooling_updateOutput, hu]; cases bm <;> rfl
    | some c =>
      simp only [featureLPPooling_updateOutput, hu] at h ⊢
      split_ifs at h ⊢ <;> first | rfl | simp at h
  · intro inputTH gradOutputTH outTH gradInputTH w s bm h
    cases hu : upcast inputTH bm with
    | none =>
      simp only [featureLPPooling_updateGradInput, hu]; cases bm <;> rfl
    | some c =>
      cases hg : upcast gradOutputTH bm <;> cases ho : upcast outTH bm <;>
        simp only [featureLPPooling_updateGradInput, hu, hg, ho] at h ⊢ <;>
        split_ifs at h ⊢ <;> first | rfl | simp at h

/-- Witness for Claim C8: with W = 1 both calls fail and return the
caller buffer unchanged. -/
theorem validation_before_mutation_witness :
    (featureLPPooling_updateOutput [(1, 1)] [(9, 9)] 1 1 false).2
      = [(9, 9)] ∧
    (featureLPPooling_updateGradInput [(1, 1)] [] [] [(8, 8)] 1 1 false).2
      = [(8, 8)] :=
  ⟨validation_before_mutation.1 [(1, 1)] [(9, 9)] 1 1 false (by decide),
   validation_before_mutation.2 [(1, 1)] [] [] [(8, 8)] 1 1 false
     (by decide)⟩

/-- Claim C5 counterexample: a backward call whose output and gradOutput
disagree in canonical shape (feature sizes 3 vs 2) but whose width is 1
fails with InvalidParameter, not ShapeMismatch: the parameter checks run
before the output/gradOutput consistency checks, so the claim does not
hold for every backward call. -/
theorem backward_shape_checks_counterexample :
    isSameSizeAndStride ⟨(1, 1), (3, 1), (1, 1), (1, 1)⟩
        ⟨(1, 1), (2, 1), (1, 1), (1, 1)⟩ = false ∧
    upcast [(3, 1)] false = some ⟨(1, 1), (3, 1), (1, 1), (1, 1)⟩ ∧
    upcast [(2, 1)] false = some ⟨(1, 1), (2, 1), (1, 1), (1, 1)⟩ ∧
    ((featureLPPooling_updateGradInput [(4, 1)] [(2, 1)] [(3, 1)] [(7, 7)]
        1 1 false).1).map PoolError.kind ≠ some ErrorKind.ShapeMismatch := by
  decide

/-- Claim C5 (amended): in a backward call whose earlier validation (rank,
feature size, width, stride) passes and whose output and gradOutput
canonicalize, a canonical size/stride disagreement between output and
gradOutput, or an outputSize inconsistency between input and output, fails
with ShapeMismatch and leaves gradInput untouched (no resize, no
computation). -/
theorem backward_shape_checks
    (inputTH gradOutputTH outTH gradInputTH : Tensor)
    (w s : Int) (bm : Bool) (ci go o : Canon)
    (hu : upcast inputTH bm = some ci)
    (hg : upcast gradOutputTH bm = some go)
    (ho : upcast outTH bm = some o)
    (hf : w ≤ (ci.getSize1 : Int)) (hw : 2 ≤ w ∧ w ≤ 16)
    (hs : 1 ≤ s ∧ s ≤ 4)
    (hbad : isSameSizeAndStride o go = false ∨
      outputSize (ci.getSize1 : Int) w s ≠ (o.getSize1 : Int)) :
    ((featureLPPooling_updateGradInput inputTH gradOutputTH outTH
        gradInputTH w s bm).1).map PoolError.kind
      = some ErrorKind.ShapeMismatch ∧
    (featureLPPooling_updateGradInput inputTH gradOutputTH outTH
        gradInputTH w s bm).2 = gradInputTH := by
  simp only [featureLPPooling_updateGradInput, hu, hg, ho]
  rw [if_neg (by omega), if_neg (by omega), if_neg (by omega)]
  rcases hbad with hb | hb
  · rw [if_pos hb]
    exact ⟨rfl, rfl⟩
  · cases hss : isSameSizeAndStride o go with
    | false =>
      rw [if_pos rfl]
      exact ⟨rfl, rfl⟩
    | true =>
      rw [if_neg (by simp), if_pos hb]
      exact ⟨rfl, rfl⟩

/-- Witness for Claim C5: gradOutput of feature size 2 against an output of
feature size 3 is rejected with ShapeMismatch and gradInput stays as
passed. -/
theorem backward_shape_checks_witness :
    ((featureLPPooling_updateGradInput [(4, 1)] [(2, 1)] [(3, 1)] [(7, 7)]
        2 1 false).1).map PoolError.kind = some ErrorKind.ShapeMismatch ∧
    (featureLPPooling_updateGradInput [(4, 1)] [(2, 1)] [(3, 1)] [(7, 7)]
        2 1 false).2 = [(7, 7)] :=
  backward_shape_checks [(4, 1)] [(2, 1)] [(3, 1)] [(7, 7)] 2 1 false
    ⟨(1, 1), (4, 1), (1, 1), (1, 1)⟩ ⟨(1, 1), (2, 1), (1, 1), (1, 1)⟩
    ⟨(1, 1), (3, 1), (1, 1), (1, 1)⟩ rfl rfl rfl
    (by decide) (by decide) (by decide) (Or.inl (by decide))

/-- Claim C6: a forward call whose validation passes succeeds and resizes
the caller output buffer so that only the feature axis (raw axis 1 if
batched, raw axis 0 if unbatched) is transformed to outputSize, every other
raw axis size passing through unchanged at its original position. -/
theorem forward_resizes_feature_axis_only
    (inputTH outputTH : Tensor) (w s : Int) (bm : Bool) (c : Canon)
    (hu : upcast inputTH bm = some c)
    (hf : w ≤ (c.getSize1 : Int))
    (hw : 2 ≤ w ∧ w ≤ 16) (hs : 1 ≤ s ∧ s ≤ 4) :
    (featureLPPooling_updateOutput inputTH outputTH w s bm).1 = none ∧
    ((featureLPPooling_updateOutput inputTH outputTH w s bm).2).map
        Prod.fst
      = (inputTH.map Prod.fst).set (if bm then 1 else 0)
          (outputSize (c.getSize1 : Int) w s).toNat := by
  have hres : featureLPPooling_updateOutput inputTH outputTH w s bm
      = (none, resizeForOutput outputTH inputTH bm w s) := by
    simp only [featureLPPooling_updateOutput, hu]
    rw [if_neg (by omega), if_neg (by omega), if_neg (by omega)]
  rw [hres]
  refine ⟨rfl, ?_⟩
  cases bm <;>
    rcases inputTH with _ | ⟨a, _ | ⟨b, _ | ⟨cc, _ | ⟨d, _ | ⟨e, rest⟩⟩⟩⟩⟩ <;>
    simp only [upcast] at hu <;> cases hu <;> rfl

/-- Witness for Claim C6: a batched (2, 4) input with W = 2 and S = 1
yields an output buffer of raw shape (2, 3). -/
theorem forward_resizes_feature_axis_only_witness :
    (featureLPPooling_updateOutput [(2, 4), (4, 1)] [] 2 1 true).1
      = none ∧
    ((featureLPPooling_updateOutput [(2, 4), (4, 1)] [] 2 1 true).2).map
        Prod.fst = [2, 3] := by
  have h := forward_resizes_feature_axis_only [(2, 4), (4, 1)] [] 2 1 true
    ⟨(2, 4), (4, 1), (1, 1), (1, 1)⟩ rfl (by decide) (by decide) (by decide)
  exact ⟨h.1, h.2.trans (by decide)⟩

theorem resize_map_fst_of_upcast (g t : Tensor) (bm : Bool) (c : Canon)
    (hu : upcast t bm = some c) :
    (resize g t).map Prod.fst = t.map Prod.fst := by
  cases bm <;>
    rcases t with _ | ⟨a, _ | ⟨b, _ | ⟨cc, _ | ⟨d, _ | ⟨e, rest⟩⟩⟩⟩⟩ <;>
    simp only [upcast] at hu <;> cases hu <;> rfl

/-- Claim C7: a backward call that passes all validation resizes the
gradInput buffer so that its raw shape (rank and every axis size) is
identical to the raw shape of the input tensor. -/
theorem backward_resizes_gradInput_like_input
    (inputTH gradOutputTH outTH gradInputTH : Tensor) (w s : Int)
    (bm : Bool)
    (h : (featureLPPooling_updateGradInput inputTH gradOutputTH outTH
        gradInputTH w s bm).1 = none) :
    ((featureLPPooling_updateGradInput inputTH gradOutputTH outTH
        gradInputTH w s bm).2).map Prod.fst = inputTH.map Prod.fst := by
  cases hu : upcast inputTH bm with
  | none =>
    simp only [featureLPPooling_updateGradInput, hu] at h
    cases bm <;> simp at h
  | some c =>
    cases hg : upcast gradOutputTH bm <;> cases ho : upcast outTH bm <;>
      simp only [featureLPPooling_updateGradInput, hu, hg, ho] at h ⊢ <;>
      split_ifs at h ⊢ <;>
      first
        | exact resize_map_fst_of_upcast gradInputTH inputTH bm c hu
        | simp at h

/-- Witness for Claim C7: a successful backward call on a rank-1 input of
feature size 4 resizes gradInput to raw shape (4). -/
theorem backward_resizes_gradInput_like_input_witness :
    ((featureLPPooling_updateGradInput [(4, 1)] [(3, 1)] [(3, 1)] [(7, 7)]
        2 1 false).2).map Prod.fst = [4] := by
  have h := backward_resizes_gradInput_like_input [(4, 1)] [(3, 1)]
    [(3, 1)] [(7, 7)] 2 1 false (by decide)
  exact h.trans (by decide)

end FeatureLPPooling
